import Mathlib

/-!
Shallow embedding of the AsyncToLLVM lowering pass and of the SCF structural
type conversion patterns, with proofs of the specified properties.

Conversion patterns are embedded as pure functions from the data a pattern
inspects to the list of operations it emits; a failing pattern returns an
error value, which models the fact that the conversion rewriter rolls back
every operation a failed pattern created.
-/

/-- Types appearing in the lowering: the async dialect types, the LLVM
dialect types the pass produces, and an abstract constructor standing for
every remaining (unrelated) type. -/
inductive MType where
  | token
  | value (payload : MType)
  | group
  | coroId
  | coroState
  | coroHandle
  | i (width : Nat)
  | ptr (pointee : MType)
  | llvmToken
  | resumeFnType
  | other (id : Nat)
  deriving DecidableEq, Repr

/-- Names of the Async Runtime C API functions declared by the pass. -/
def kAddRef : String := "mlirAsyncRuntimeAddRef"

def kDropRef : String := "mlirAsyncRuntimeDropRef"

def kCreateToken : String := "mlirAsyncRuntimeCreateToken"

def kCreateValue : String := "mlirAsyncRuntimeCreateValue"

def kCreateGroup : String := "mlirAsyncRuntimeCreateGroup"

def kEmplaceToken : String := "mlirAsyncRuntimeEmplaceToken"

def kEmplaceValue : String := "mlirAsyncRuntimeEmplaceValue"

def kAwaitToken : String := "mlirAsyncRuntimeAwaitToken"

def kAwaitValue : String := "mlirAsyncRuntimeAwaitValue"

def kAwaitGroup : String := "mlirAsyncRuntimeAwaitAllInGroup"

def kExecute : String := "mlirAsyncRuntimeExecute"

def kGetValueStorage : String := "mlirAsyncRuntimeGetValueStorage"

def kAddTokenToGroup : String := "mlirAsyncRuntimeAddTokenToGroup"

def kAwaitTokenAndExecute : String := "mlirAsyncRuntimeAwaitTokenAndExecute"

def kAwaitValueAndExecute : String := "mlirAsyncRuntimeAwaitValueAndExecute"

def kAwaitAllAndExecute : String := "mlirAsyncRuntimeAwaitAllInGroupAndExecute"

def kMalloc : String := "malloc"

def kFree : String := "free"

/-- AsyncAPI.opaquePointerType: all async types lower to an opaque i8
pointer at runtime. -/
def opaquePointerType : MType := MType.ptr (MType.i 8)

/-- AsyncAPI.tokenType: the LLVM token type. -/
def llvmTokenType : MType := MType.llvmToken

/-- AsyncRuntimeTypeConverter.convertAsyncTypes: Token, Group and Value
types become opaque pointers; coroutine id and state markers become the
LLVM token type; coroutine handles become opaque pointers; every other
type is not handled here (the callback returns llvm.None). -/
def convertAsyncTypes (type : MType) : Option MType :=
  match type with
  | MType.token => some opaquePointerType
  | MType.group => some opaquePointerType
  | MType.value _ => some opaquePointerType
  | MType.coroId => some llvmTokenType
  | MType.coroState => some llvmTokenType
  | MType.coroHandle => some opaquePointerType
  | _ => none

/-- The composed AsyncRuntimeTypeConverter: the constructor registers an
identity fallback conversion first and convertAsyncTypes second, and the
conversion framework tries callbacks most recently added first, falling
through to the next one when a callback declines, so the composition is
convertAsyncTypes when it applies and the identity otherwise. -/
def asyncRuntimeConvertType (type : MType) : MType :=
  match convertAsyncTypes type with
  | some converted => converted
  | none => type

/-- Modelled from the claim wording: the mapping the specification
describes for the async type converter, written independently of the
source for refinement comparison. -/
def asyncRuntimeConvertTypeSpec (type : MType) : MType :=
  match type with
  | MType.token => MType.ptr (MType.i 8)
  | MType.value _ => MType.ptr (MType.i 8)
  | MType.group => MType.ptr (MType.i 8)
  | MType.coroId => MType.llvmToken
  | MType.coroState => MType.llvmToken
  | MType.coroHandle => MType.ptr (MType.i 8)
  | t => t

/-- A reference to an SSA value inside an emitted instruction sequence:
either an incoming operand of the rewritten operation (as seen through the
adaptor) or the result of the instruction at a given position of the
emitted sequence. -/
inductive VRef where
  | arg (index : Nat)
  | res (index : Nat)
  deriving DecidableEq, Repr

/-- Operations emitted by the conversion patterns.  Pointer-producing
instructions record their pointee type; the create lowering feeds the type
converter result into the pointee position without checking it, which is
why those fields hold an optional type (none models the null MLIR type). -/
inductive Instr where
  | llvmNull (pointeeType : Option MType)
  | constI32 (n : Int)
  | constI1 (b : Bool)
  | gep (pointeeType : Option MType) (base : VRef) (index : VRef)
  | ptrToInt (operand : VRef)
  | bitcast (pointeeType : MType) (operand : VRef)
  | call (callee : String) (args : List VRef)
  | store (value : VRef) (addr : VRef)
  | load (addr : VRef)
  deriving DecidableEq, Repr

/-- Whether an emitted instruction is a function call. -/
def isCallInstr (instr : Instr) : Bool :=
  match instr with
  | Instr.call _ _ => true
  | _ => false

/-- RuntimeCreateOpLowering.matchAndRewrite: tokens and groups lower to a
zero-argument constructor call; a value result lowers to a size
computation (null pointer of the lowered payload pointer type, indexed by
the constant one, cast pointer-to-integer) followed by the value
constructor call taking that size; any other result type is a match
failure. -/
def runtimeCreateOpLowering (tc : MType → Option MType) (resultType : MType) :
    Except String (List Instr) :=
  match resultType with
  | MType.token => Except.ok [Instr.call kCreateToken []]
  | MType.group => Except.ok [Instr.call kCreateGroup []]
  | MType.value payload =>
      Except.ok
        [Instr.llvmNull (tc payload),
         Instr.constI32 1,
         Instr.gep (tc payload) (VRef.res 0) (VRef.res 1),
         Instr.ptrToInt (VRef.res 2),
         Instr.call kCreateValue [VRef.res 3]]
  | _ => Except.error "unsupported async type"

/-- RuntimeSetAvailableOpLowering.matchAndRewrite: a token operand lowers
to a call of the token emplace API, a value operand to a call of the value
emplace API, and any other operand kind (in particular a group) is a match
failure with the unsupported-kind diagnostic. -/
def runtimeSetAvailableOpLowering (operandType : MType) :
    Except String (List Instr) :=
  match operandType with
  | MType.token => Except.ok [Instr.call kEmplaceToken [VRef.arg 0]]
  | MType.value _ => Except.ok [Instr.call kEmplaceValue [VRef.arg 0]]
  | _ => Except.error "unsupported async type"

/-- RuntimeStoreOpLowering.matchAndRewrite: call the storage accessor on
the storage operand, bitcast the returned raw pointer to a pointer to the
lowered payload type, store the value operand through it; fails when the
type converter has no lowered type for the stored value type. -/
def runtimeStoreOpLowering (tc : MType → Option MType) (valueType : MType) :
    Except String (List Instr) :=
  match tc valueType with
  | none => Except.error "failed to convert stored value type to LLVM type"
  | some llvmValueType =>
      Except.ok
        [Instr.call kGetValueStorage [VRef.arg 0],
         Instr.bitcast llvmValueType (VRef.res 0),
         Instr.store (VRef.arg 1) (VRef.res 1)]

/-- RuntimeLoadOpLowering.matchAndRewrite: call the storage accessor on
the storage operand, bitcast the returned raw pointer to a pointer to the
lowered result type, load through it; fails when the type converter has no
lowered type for the loaded value type. -/
def runtimeLoadOpLowering (tc : MType → Option MType) (valueType : MType) :
    Except String (List Instr) :=
  match tc valueType with
  | none => Except.error "failed to convert loaded value type to LLVM type"
  | some llvmValueType =>
      Except.ok
        [Instr.call kGetValueStorage [VRef.arg 0],
         Instr.bitcast llvmValueType (VRef.res 0),
         Instr.load (VRef.res 1)]

/-- RefCountingOpLowering.matchAndRewrite: materialize the count attribute
as one i32 constant and emit a single call of the refcount API function
with the handle operand and that constant. -/
def refCountingOpLowering (apiFunctionName : String) (count : Int) :
    List Instr :=
  [Instr.constI32 count,
   Instr.call apiFunctionName [VRef.arg 0, VRef.res 0]]

/-- RuntimeAddRefOpLowering: the refcounting lowering instantiated with
the add-ref API name. -/
def runtimeAddRefOpLowering (count : Int) : List Instr :=
  refCountingOpLowering kAddRef count

/-- RuntimeDropRefOpLowering: the refcounting lowering instantiated with
the drop-ref API name. -/
def runtimeDropRefOpLowering (count : Int) : List Instr :=
  refCountingOpLowering kDropRef count

/-- Sign extension of an i8 bit pattern (a natural number below 256) to
the mathematical integer an i32 holding its sign extension represents. -/
def sext8to32 (bits : Nat) : Int :=
  if bits < 128 then (bits : Int) else (bits : Int) - 256

/-- The data of an emitted LLVM switch terminator: case values with their
destination blocks (blocks are identified by numbers) and the default
destination. -/
structure SwitchLowering where
  caseValues : List Int
  caseDests : List Nat
  defaultDest : Nat
  deriving DecidableEq, Repr

/-- CoroSuspendOpConversion.matchAndRewrite: the emitted switch has case
values zero and one targeting the resume and cleanup successors of the
suspend operation, and the suspend successor as default destination. -/
def coroSuspendSwitch (resumeDest cleanupDest suspendDest : Nat) :
    SwitchLowering :=
  { caseValues := [0, 1],
    caseDests := [resumeDest, cleanupDest],
    defaultDest := suspendDest }

/-- Execution of a switch terminator on a scrutinee value: the first case
whose value equals the scrutinee wins, otherwise control goes to the
default destination. -/
def switchTargetAux (defaultDest : Nat) : List (Int × Nat) → Int → Nat
  | [], _ => defaultDest
  | (c, d) :: rest, v => if v = c then d else switchTargetAux defaultDest rest v

/-- The destination block a switch terminator transfers control to for a
given scrutinee value. -/
def switchTarget (sw : SwitchLowering) (v : Int) : Nat :=
  switchTargetAux sw.defaultDest (sw.caseValues.zip sw.caseDests) v

/-- The block the lowered suspend control flow reaches when the coro
suspend intrinsic returns the i8 bit pattern given as last argument: the
switch emitted by the conversion runs on the i8 result sign extended to
i32. -/
def coroSuspendLoweredTarget (resumeDest cleanupDest suspendDest : Nat)
    (bits : Nat) : Nat :=
  switchTarget (coroSuspendSwitch resumeDest cleanupDest suspendDest)
    (sext8to32 bits)

/-- A function declaration in the module symbol table: a symbol name with
parameter and result types. -/
structure FuncDecl where
  name : String
  params : List MType
  results : List MType
  deriving DecidableEq, Repr

/-- A module, as the declaration patterns see it: the ordered list of its
top level symbol declarations. -/
abbrev IRModule := List FuncDecl

/-- ModuleOp.lookupSymbol restricted to what the declaration step needs:
whether a declaration with the given name exists. -/
def lookupSymbol (m : IRModule) (n : String) : Bool :=
  m.any fun d => d.name == n

/-- The addFuncDecl helper of addAsyncRuntimeApiDeclarations and the
addLLVMFuncDecl helper: look the name up first and only append the
declaration when it is absent. -/
def addFuncDecl (m : IRModule) (d : FuncDecl) : IRModule :=
  if lookupSymbol m d.name then m else m ++ [d]

/-- Insert a list of declarations in order, each one guarded by a symbol
table lookup. -/
def addDecls (m : IRModule) (ds : List FuncDecl) : IRModule :=
  ds.foldl addFuncDecl m

/-- The sixteen Async Runtime API declarations, with the function types
built by the AsyncAPI helpers, in the order addAsyncRuntimeApiDeclarations
inserts them. -/
def apiDecls : List FuncDecl :=
  [⟨kAddRef, [opaquePointerType, MType.i 32], []⟩,
   ⟨kDropRef, [opaquePointerType, MType.i 32], []⟩,
   ⟨kCreateToken, [], [MType.token]⟩,
   ⟨kCreateValue, [MType.i 32], [opaquePointerType]⟩,
   ⟨kCreateGroup, [], [MType.group]⟩,
   ⟨kEmplaceToken, [MType.token], []⟩,
   ⟨kEmplaceValue, [opaquePointerType], []⟩,
   ⟨kAwaitToken, [MType.token], []⟩,
   ⟨kAwaitValue, [opaquePointerType], []⟩,
   ⟨kAwaitGroup, [MType.group], []⟩,
   ⟨kExecute, [opaquePointerType, MType.ptr MType.resumeFnType], []⟩,
   ⟨kGetValueStorage, [opaquePointerType], [opaquePointerType]⟩,
   ⟨kAddTokenToGroup, [MType.token, MType.group], [MType.i 64]⟩,
   ⟨kAwaitTokenAndExecute,
     [MType.token, opaquePointerType, MType.ptr MType.resumeFnType], []⟩,
   ⟨kAwaitValueAndExecute,
     [opaquePointerType, opaquePointerType, MType.ptr MType.resumeFnType], []⟩,
   ⟨kAwaitAllAndExecute,
     [MType.group, opaquePointerType, MType.ptr MType.resumeFnType], []⟩]

/-- The two C runtime declarations addCRuntimeDeclarations inserts. -/
def cRuntimeDecls : List FuncDecl :=
  [⟨kMalloc, [MType.i 64], [opaquePointerType]⟩,
   ⟨kFree, [opaquePointerType], []⟩]

/-- addAsyncRuntimeApiDeclarations: insert the sixteen API declarations,
each guarded by a lookup. -/
def addAsyncRuntimeApiDeclarations (m : IRModule) : IRModule :=
  addDecls m apiDecls

/-- addCRuntimeDeclarations: insert the malloc and free declarations, each
guarded by a lookup. -/
def addCRuntimeDeclarations (m : IRModule) : IRModule :=
  addDecls m cRuntimeDecls

/-- The declaration step of ConvertAsyncToLLVMPass.runOnOperation: the
runtime API declarations followed by the C runtime declarations. -/
def addRuntimeDeclarations (m : IRModule) : IRModule :=
  addCRuntimeDeclarations (addAsyncRuntimeApiDeclarations m)

/-- Number of declarations with a given name in a module. -/
def countName (m : IRModule) (n : String) : Nat :=
  m.countP fun d => d.name == n

/-- An operation nested inside a region of a region-bearing operation;
nothing about it is inspected by the structural patterns, so it is an
opaque tree of a name and nested regions of further operations. -/
inductive OpNode where
  | node (opName : String) (regions : List (List OpNode))

/-- A region as the structural patterns see it: the argument types of its
entry block, and the ordered list of operations it holds. -/
structure ORegion where
  entryArgs : List MType
  body : List OpNode

/-- An scf.for operation as ConvertForOpTypes sees it. -/
structure ForOpData where
  resultTypes : List MType
  loopBody : ORegion

/-- An scf.if operation as ConvertIfOpTypes sees it. -/
structure IfOpData where
  resultTypes : List MType
  thenRegion : ORegion
  elseRegion : ORegion

/-- An async.execute operation as ConvertExecuteOpTypes sees it. -/
structure ExecuteOpData where
  resultTypes : List MType
  bodyRegion : ORegion

/-- An async.execute operation after ConvertExecuteOpTypes: the pattern
sets each result type to the raw converter output without checking it, so
the result types of the rewritten operation are optional types. -/
structure ExecuteOpConverted where
  resultTypes : List (Option MType)
  bodyRegion : ORegion

/-- The one-by-one result type conversion loop of the structural patterns:
fails on the first type the converter has no answer for. -/
def convertTypes (tc : MType → Option MType) : List MType → Option (List MType)
  | [] => some []
  | t :: ts =>
      match tc t with
      | none => none
      | some t2 =>
          match convertTypes tc ts with
          | none => none
          | some ts2 => some (t2 :: ts2)

/-- ConversionPatternRewriter.convertRegionTypes on a moved region:
convert the entry block argument types, leaving the operations of the
region untouched; fails when some argument type does not convert. -/
def convertRegionTypes (tc : MType → Option MType) (r : ORegion) :
    Option ORegion :=
  match convertTypes tc r.entryArgs with
  | none => none
  | some newArgs => some { entryArgs := newArgs, body := r.body }

/-- ConvertForOpTypes.matchAndRewrite: convert every result type, failing
with the 1:1 diagnostic on the first failure before any mutation; then
clone the operation without regions, move the loop body into the clone,
convert the entry block argument types of the moved region (a distinct
diagnostic on failure), and install the converted result types. -/
def convertForOpTypes (tc : MType → Option MType) (op : ForOpData) :
    Except String ForOpData :=
  match convertTypes tc op.resultTypes with
  | none => Except.error "not a 1:1 type conversion"
  | some newResultTypes =>
      match convertRegionTypes tc op.loopBody with
      | none => Except.error "could not convert body types"
      | some newBody =>
          Except.ok { resultTypes := newResultTypes, loopBody := newBody }

/-- ConvertIfOpTypes.matchAndRewrite: convert every result type, failing
with the 1:1 diagnostic on the first failure before any mutation; then
clone the operation without regions, move the then and else regions into
the clone unchanged, and install the converted result types. -/
def convertIfOpTypes (tc : MType → Option MType) (op : IfOpData) :
    Except String IfOpData :=
  match convertTypes tc op.resultTypes with
  | none => Except.error "not a 1:1 type conversion"
  | some newResultTypes =>
      Except.ok
        { resultTypes := newResultTypes,
          thenRegion := op.thenRegion,
          elseRegion := op.elseRegion }

/-- ConvertExecuteOpTypes.matchAndRewrite: clone the operation without
regions, move the body region into the clone, convert the entry block
argument types of the moved region (plain failure when that fails), and
set every result type to the raw converter output, unchecked. -/
def convertExecuteOpTypes (tc : MType → Option MType) (op : ExecuteOpData) :
    Option ExecuteOpConverted :=
  match convertRegionTypes tc op.bodyRegion with
  | none => none
  | some newBody =>
      some { resultTypes := op.resultTypes.map tc, bodyRegion := newBody }

theorem convertTypes_eq_none_iff (tc : MType → Option MType) (l : List MType) :
    convertTypes tc l = none ↔ ∃ t ∈ l, tc t = none := by
  induction l with
  | nil => simp [convertTypes]
  | cons t ts ih =>
      simp only [convertTypes]
      cases htc : tc t with
      | none => simp [htc]
      | some t2 =>
          cases hts : convertTypes tc ts with
          | none =>
              simp only [List.mem_cons]
              constructor
              · intro _
                rcases ih.mp hts with ⟨u, hu, hu2⟩
                exact ⟨u, Or.inr hu, hu2⟩
              · intro _
                trivial
          | some ts2 =>
              simp only [List.mem_cons]
              constructor
              · intro h
                cases h
              · rintro ⟨u, hu, hu2⟩
                rcases hu with rfl | hu
                · rw [htc] at hu2
                  cases hu2
                · have hnone : convertTypes tc ts = none := ih.mpr ⟨u, hu, hu2⟩
                  rw [hts] at hnone
                  cases hnone

theorem lookupSymbol_append_single (m : IRModule) (d : FuncDecl) (n : String) :
    lookupSymbol (m ++ [d]) n = (lookupSymbol m n || (d.name == n)) := by
  simp [lookupSymbol, List.any_append]

theorem lookup_addFuncDecl_self (m : IRModule) (d : FuncDecl) :
    lookupSymbol (addFuncDecl m d) d.name = true := by
  unfold addFuncDecl
  split
  next h => exact h
  next h =>
    rw [lookupSymbol_append_single]
    simp

theorem lookup_addFuncDecl_mono (m : IRModule) (d : FuncDecl) (n : String)
    (h : lookupSymbol m n = true) : lookupSymbol (addFuncDecl m d) n = true := by
  unfold addFuncDecl
  split
  · exact h
  · rw [lookupSymbol_append_single, h]
    rfl

theorem lookup_addFuncDecl_false (m : IRModule) (d : FuncDecl) (n : String)
    (hmn : lookupSymbol m n = false) (hdn : (d.name == n) = false) :
    lookupSymbol (addFuncDecl m d) n = false := by
  unfold addFuncDecl
  split
  · exact hmn
  · rw [lookupSymbol_append_single, hmn, hdn]
    rfl

theorem lookup_addDecls_mono (ds : List FuncDecl) (m : IRModule) (n : String)
    (h : lookupSymbol m n = true) : lookupSymbol (addDecls m ds) n = true := by
  induction ds generalizing m with
  | nil => exact h
  | cons d ds ih => exact ih (addFuncDecl m d) (lookup_addFuncDecl_mono m d n h)

theorem lookup_addDecls_of_mem (ds : List FuncDecl) (m : IRModule)
    (d : FuncDecl) (hd : d ∈ ds) :
    lookupSymbol (addDecls m ds) d.name = true := by
  induction ds generalizing m with
  | nil => cases hd
  | cons d0 ds ih =>
      rcases List.mem_cons.mp hd with rfl | htl
      · exact lookup_addDecls_mono ds (addFuncDecl m d) d.name
          (lookup_addFuncDecl_self m d)
      · exact ih (addFuncDecl m d0) htl

theorem lookup_addDecls_false (ds : List FuncDecl) (m : IRModule) (n : String)
    (hmn : lookupSymbol m n = false)
    (hds : ∀ d ∈ ds, (d.name == n) = false) :
    lookupSymbol (addDecls m ds) n = false := by
  induction ds generalizing m with
  | nil => exact hmn
  | cons d0 ds ih =>
      exact ih (addFuncDecl m d0)
        (lookup_addFuncDecl_false m d0 n hmn (hds d0 (List.mem_cons_self d0 ds)))
        (fun d hd => hds d (List.mem_cons_of_mem d0 hd))

theorem addFuncDecl_of_lookup (m : IRModule) (d : FuncDecl)
    (h : lookupSymbol m d.name = true) : addFuncDecl m d = m := by
  unfold addFuncDecl
  simp [h]

theorem addDecls_of_lookup_all (ds : List FuncDecl) (m : IRModule)
    (h : ∀ d ∈ ds, lookupSymbol m d.name = true) : addDecls m ds = m := by
  induction ds with
  | nil => rfl
  | cons d0 ds ih =>
      show addDecls (addFuncDecl m d0) ds = m
      rw [addFuncDecl_of_lookup m d0 (h d0 (List.mem_cons_self d0 ds))]
      exact ih fun d hd => h d (List.mem_cons_of_mem d0 hd)

theorem addDecls_idem (ds : List FuncDecl) (m : IRModule) :
    addDecls (addDecls m ds) ds = addDecls m ds :=
  addDecls_of_lookup_all ds (addDecls m ds)
    fun d hd => lookup_addDecls_of_mem ds m d hd

theorem countName_append_single (m : IRModule) (d : FuncDecl) (n : String) :
    countName (m ++ [d]) n = countName m n + (if d.name == n then 1 else 0) := by
  simp [countName, List.countP_append, List.countP_cons]

theorem countName_eq_zero_of_lookup_false (m : IRModule) (n : String)
    (h : lookupSymbol m n = false) : countName m n = 0 := by
  rw [countName, List.countP_eq_zero]
  intro d hd hpd
  have hany : m.any (fun d => d.name == n) = true :=
    List.any_eq_true.mpr ⟨d, hd, hpd⟩
  rw [lookupSymbol] at h
  rw [h] at hany
  cases hany

theorem countName_addFuncDecl_other (m : IRModule) (d : FuncDecl) (n : String)
    (h : (d.name == n) = false) :
    countName (addFuncDecl m d) n = countName m n := by
  unfold addFuncDecl
  split
  · rfl
  · rw [countName_append_single, h]
    simp

theorem countName_addDecls_of_lookup (ds : List FuncDecl) (m : IRModule)
    (n : String) (h : lookupSymbol m n = true) :
    countName (addDecls m ds) n = countName m n := by
  induction ds generalizing m with
  | nil => rfl
  | cons d0 ds ih =>
      show countName (addDecls (addFuncDecl m d0) ds) n = countName m n
      cases hdn : (d0.name == n) with
      | true =>
          have hn0 : d0.name = n := beq_iff_eq.mp hdn
          have hlk : lookupSymbol m d0.name = true := by
            rw [hn0]
            exact h
          rw [addFuncDecl_of_lookup m d0 hlk]
          exact ih m h
      | false =>
          rw [ih (addFuncDecl m d0) (lookup_addFuncDecl_mono m d0 n h)]
          exact countName_addFuncDecl_other m d0 n hdn

theorem countName_addDecls_eq_one (ds : List FuncDecl) (m : IRModule)
    (n : String) (hlk : lookupSymbol m n = false)
    (hmem : ∃ d ∈ ds, d.name = n) : countName (addDecls m ds) n = 1 := by
  induction ds generalizing m with
  | nil =>
      rcases hmem with ⟨d, hd, _⟩
      cases hd
  | cons d0 ds ih =>
      show countName (addDecls (addFuncDecl m d0) ds) n = 1
      cases hdn : (d0.name == n) with
      | true =>
          have hn0 : d0.name = n := beq_iff_eq.mp hdn
          have hadd : addFuncDecl m d0 = m ++ [d0] := by
            unfold addFuncDecl
            rw [hn0, hlk]
            rfl
          have hcnt : countName (addFuncDecl m d0) n = 1 := by
            rw [hadd, countName_append_single,
              countName_eq_zero_of_lookup_false m n hlk, hdn]
            rfl
          have hlk2 : lookupSymbol (addFuncDecl m d0) n = true := by
            rw [← hn0]
            exact lookup_addFuncDecl_self m d0
          rw [countName_addDecls_of_lookup ds (addFuncDecl m d0) n hlk2]
          exact hcnt
      | false =>
          have hlk2 : lookupSymbol (addFuncDecl m d0) n = false :=
            lookup_addFuncDecl_false m d0 n hlk hdn
          have hmem2 : ∃ d ∈ ds, d.name = n := by
            rcases hmem with ⟨d, hd, hdeq⟩
            rcases List.mem_cons.mp hd with rfl | htl
            · exfalso
              have hbeq : (d.name == n) = true := beq_iff_eq.mpr hdeq
              rw [hdn] at hbeq
              cases hbeq
            · exact ⟨d, htl, hdeq⟩
          exact ih (addFuncDecl m d0) hlk2 hmem2

theorem convertRegionTypes_body (tc : MType → Option MType) (r newR : ORegion)
    (h : convertRegionTypes tc r = some newR) : newR.body = r.body := by
  unfold convertRegionTypes at h
  split at h
  · cases h
  · cases h
    rfl

/-- Claim C1: the lowering of async.coro.suspend branches on the
sign-extended i8 result of the coro suspend intrinsic through a switch in
which case value zero targets the resume successor, case value one targets
the cleanup successor, and every other result bit pattern (including the
pattern of minus one) reaches the default destination, the final-suspend
successor. -/
theorem coro_suspend_lowering_branch_semantics
    (resumeDest cleanupDest suspendDest bits : Nat) (hb : bits < 256) :
    coroSuspendLoweredTarget resumeDest cleanupDest suspendDest bits =
      if bits = 0 then resumeDest
      else if bits = 1 then cleanupDest
      else suspendDest := by
  simp only [coroSuspendLoweredTarget, switchTarget, coroSuspendSwitch,
    List.zip_cons_cons, List.zip_nil_right, switchTargetAux, sext8to32]
  by_cases h0 : bits = 0
  · subst h0
    norm_num
  · by_cases h1 : bits = 1
    · subst h1
      norm_num
    · have hne0 : (if bits < 128 then (bits : Int) else (bits : Int) - 256) ≠ 0 := by
        split <;> omega
      have hne1 : (if bits < 128 then (bits : Int) else (bits : Int) - 256) ≠ 1 := by
        split <;> omega
      simp [hne0, hne1, h0, h1]

theorem coro_suspend_lowering_branch_semantics_witness :
    coroSuspendLoweredTarget 10 20 30 255 = 30 := by
  rw [coro_suspend_lowering_branch_semantics 10 20 30 255 (by decide)]
  decide

/-- Claim C3: the async runtime type converter is total and agrees with
the specified mapping on every type: Token, Value and Group to the opaque
i8 pointer; the coroutine id and state markers to the LLVM token type; the
coroutine handle to the opaque i8 pointer; every other type to itself. -/
theorem async_runtime_type_converter_total (t : MType) :
    asyncRuntimeConvertType t = asyncRuntimeConvertTypeSpec t := by
  cases t <;> rfl

/-- Claim C5: lowering of set_available emits a token emplace call for a
token operand and a value emplace call for a value operand, and fails with
the unsupported-kind diagnostic for any other operand kind, emitting
nothing in that case. -/
theorem runtime_set_available_lowering_cases :
    runtimeSetAvailableOpLowering MType.token =
        Except.ok [Instr.call kEmplaceToken [VRef.arg 0]] ∧
    (∀ payload, runtimeSetAvailableOpLowering (MType.value payload) =
        Except.ok [Instr.call kEmplaceValue [VRef.arg 0]]) ∧
    (∀ t, t ≠ MType.token → (∀ payload, t ≠ MType.value payload) →
        runtimeSetAvailableOpLowering t =
          Except.error "unsupported async type") := by
  refine ⟨rfl, fun _ => rfl, ?_⟩
  intro t ht hv
  cases t
  case token => exact absurd rfl ht
  case value payload => exact absurd rfl (hv payload)
  all_goals rfl

theorem runtime_set_available_lowering_cases_witness :
    runtimeSetAvailableOpLowering MType.group =
      Except.error "unsupported async type" :=
  runtime_set_available_lowering_cases.2.2 MType.group
    (fun h => MType.noConfusion h) (fun _ h => MType.noConfusion h)

/-- Claim C6: lowering of create emits for a token or group result exactly
one zero-argument call of the corresponding constructor, and for a value
result the size computation that indexes a null pointer of the lowered
payload pointer type by the constant one and casts the resulting pointer
to an integer, followed by the value constructor call whose single
argument is that size. -/
theorem runtime_create_lowering_shape (tc : MType → Option MType)
    (payload : MType) :
    runtimeCreateOpLowering tc MType.token =
        Except.ok [Instr.call kCreateToken []] ∧
    runtimeCreateOpLowering tc MType.group =
        Except.ok [Instr.call kCreateGroup []] ∧
    runtimeCreateOpLowering tc (MType.value payload) =
        Except.ok
          [Instr.llvmNull (tc payload),
           Instr.constI32 1,
           Instr.gep (tc payload) (VRef.res 0) (VRef.res 1),
           Instr.ptrToInt (VRef.res 2),
           Instr.call kCreateValue [VRef.res 3]] := by
  exact ⟨rfl, rfl, rfl⟩

/-- Claim C8: lowering of add_ref and drop_ref materializes the count as
one i32 constant and emits exactly one call of the refcount API with the
handle and that constant as arguments, never splitting the delta. -/
theorem ref_counting_lowering_single_call (count : Int) :
    runtimeAddRefOpLowering count =
        [Instr.constI32 count,
         Instr.call kAddRef [VRef.arg 0, VRef.res 0]] ∧
    runtimeDropRefOpLowering count =
        [Instr.constI32 count,
         Instr.call kDropRef [VRef.arg 0, VRef.res 0]] ∧
    (runtimeAddRefOpLowering count).countP isCallInstr = 1 ∧
    (runtimeDropRefOpLowering count).countP isCallInstr = 1 :=
  ⟨rfl, rfl, rfl, rfl⟩

/-- Claim C2: the structural conversion patterns for the structured loop,
the structured conditional and the async execute operation move the
regions of the old operation into the replacement, so on success the list
of operations inside each region of the replacement is exactly the list of
operations inside the corresponding region of the old operation: nothing
is duplicated and nothing is dropped. -/
theorem structural_conversion_moves_regions :
    (∀ (tc : MType → Option MType) (op newOp : ForOpData),
        convertForOpTypes tc op = Except.ok newOp →
        newOp.loopBody.body = op.loopBody.body) ∧
    (∀ (tc : MType → Option MType) (op newOp : IfOpData),
        convertIfOpTypes tc op = Except.ok newOp →
        newOp.thenRegion.body = op.thenRegion.body ∧
        newOp.elseRegion.body = op.elseRegion.body) ∧
    (∀ (tc : MType → Option MType) (op : ExecuteOpData)
        (newOp : ExecuteOpConverted),
        convertExecuteOpTypes tc op = some newOp →
        newOp.bodyRegion.body = op.bodyRegion.body) := by
  refine ⟨?_, ?_, ?_⟩
  · intro tc op newOp h
    unfold convertForOpTypes at h
    split at h
    · cases h
    · split at h
      · cases h
      · rename_i newBody hBody
        cases h
        exact convertRegionTypes_body tc op.loopBody newBody hBody
  · intro tc op newOp h
    unfold convertIfOpTypes at h
    split at h
    · cases h
    · cases h
      exact ⟨rfl, rfl⟩
  · intro tc op newOp h
    unfold convertExecuteOpTypes at h
    split at h
    · cases h
    · rename_i newBody hBody
      cases h
      exact convertRegionTypes_body tc op.bodyRegion newBody hBody

theorem structural_conversion_moves_regions_witness :
    (ForOpData.mk [] (ORegion.mk [] [OpNode.node "a" []])).loopBody.body =
      (ForOpData.mk [] (ORegion.mk [] [OpNode.node "a" []])).loopBody.body :=
  structural_conversion_moves_regions.1 (fun t => some t)
    (ForOpData.mk [] (ORegion.mk [] [OpNode.node "a" []]))
    (ForOpData.mk [] (ORegion.mk [] [OpNode.node "a" []])) rfl

/-- Claim C4: the structured loop and structured conditional structural
rewrites fail with the not-a-1:1-conversion diagnostic as soon as some
result type has no converted type, before building anything, and a rewrite
that succeeds had a converted type for every result type. -/
theorem structural_conversion_one_to_one_guard (tc : MType → Option MType) :
    (∀ op : ForOpData,
        ((∃ t ∈ op.resultTypes, tc t = none) →
          convertForOpTypes tc op =
            Except.error "not a 1:1 type conversion") ∧
        (∀ newOp, convertForOpTypes tc op = Except.ok newOp →
          ∀ t ∈ op.resultTypes, (tc t).isSome = true)) ∧
    (∀ op : IfOpData,
        ((∃ t ∈ op.resultTypes, tc t = none) →
          convertIfOpTypes tc op =
            Except.error "not a 1:1 type conversion") ∧
        (∀ newOp, convertIfOpTypes tc op = Except.ok newOp →
          ∀ t ∈ op.resultTypes, (tc t).isSome = true)) := by
  constructor
  · intro op
    constructor
    · intro hex
      have hnone : convertTypes tc op.resultTypes = none :=
        (convertTypes_eq_none_iff tc op.resultTypes).mpr hex
      unfold convertForOpTypes
      rw [hnone]
    · intro newOp h t ht
      cases hval : tc t with
      | some v => rfl
      | none =>
          have hnone : convertTypes tc op.resultTypes = none :=
            (convertTypes_eq_none_iff tc op.resultTypes).mpr ⟨t, ht, hval⟩
          unfold convertForOpTypes at h
          rw [hnone] at h
          cases h
  · intro op
    constructor
    · intro hex
      have hnone : convertTypes tc op.resultTypes = none :=
        (convertTypes_eq_none_iff tc op.resultTypes).mpr hex
      unfold convertIfOpTypes
      rw [hnone]
    · intro newOp h t ht
      cases hval : tc t with
      | some v => rfl
      | none =>
          have hnone : convertTypes tc op.resultTypes = none :=
            (convertTypes_eq_none_iff tc op.resultTypes).mpr ⟨t, ht, hval⟩
          unfold convertIfOpTypes at h
          rw [hnone] at h
          cases h

theorem structural_conversion_one_to_one_guard_witness :
    convertForOpTypes (fun _ => none)
        (ForOpData.mk [MType.token] (ORegion.mk [] [])) =
      Except.error "not a 1:1 type conversion" :=
  ((structural_conversion_one_to_one_guard (fun _ => none)).1
      (ForOpData.mk [MType.token] (ORegion.mk [] []))).1
    ⟨MType.token, List.mem_cons_self MType.token [], rfl⟩

/-- Claim C7: the store and load lowerings first call the storage accessor
API, bitcast the raw payload pointer to a pointer to the lowered payload
type, then perform the write or read, and they fail with a diagnostic
exactly when the type converter has no lowered type for the payload. -/
theorem runtime_store_load_lowering (tc : MType → Option MType)
    (valueType : MType) :
    (tc valueType = none →
      runtimeStoreOpLowering tc valueType =
        Except.error "failed to convert stored value type to LLVM type" ∧
      runtimeLoadOpLowering tc valueType =
        Except.error "failed to convert loaded value type to LLVM type") ∧
    (∀ llvmValueType, tc valueType = some llvmValueType →
      runtimeStoreOpLowering tc valueType =
        Except.ok
          [Instr.call kGetValueStorage [VRef.arg 0],
           Instr.bitcast llvmValueType (VRef.res 0),
           Instr.store (VRef.arg 1) (VRef.res 1)] ∧
      runtimeLoadOpLowering tc valueType =
        Except.ok
          [Instr.call kGetValueStorage [VRef.arg 0],
           Instr.bitcast llvmValueType (VRef.res 0),
           Instr.load (VRef.res 1)]) := by
  constructor
  · intro h
    unfold runtimeStoreOpLowering runtimeLoadOpLowering
    rw [h]
    exact ⟨rfl, rfl⟩
  · intro llvmValueType h
    unfold runtimeStoreOpLowering runtimeLoadOpLowering
    rw [h]
    exact ⟨rfl, rfl⟩

theorem runtime_store_load_lowering_witness :
    runtimeStoreOpLowering (fun _ => none) (MType.i 32) =
      Except.error "failed to convert stored value type to LLVM type" :=
  ((runtime_store_load_lowering (fun _ => none) (MType.i 32)).1 rfl).1

/-- Claim C10: the create lowering of a value result returns success
unconditionally and feeds the raw converter output into the pointee
positions of its size computation without checking it, so a payload type
the converter cannot lower is not reported by this pattern, although the
store and load lowerings do fail on the very same payload type. -/
theorem runtime_create_value_unchecked_payload (tc : MType → Option MType)
    (payload : MType) :
    (∃ instrs, runtimeCreateOpLowering tc (MType.value payload) =
        Except.ok instrs) ∧
    (tc payload = none →
      runtimeCreateOpLowering tc (MType.value payload) =
        Except.ok
          [Instr.llvmNull none,
           Instr.constI32 1,
           Instr.gep none (VRef.res 0) (VRef.res 1),
           Instr.ptrToInt (VRef.res 2),
           Instr.call kCreateValue [VRef.res 3]] ∧
      runtimeStoreOpLowering tc payload =
        Except.error "failed to convert stored value type to LLVM type" ∧
      runtimeLoadOpLowering tc payload =
        Except.error "failed to convert loaded value type to LLVM type") := by
  constructor
  · exact ⟨_, rfl⟩
  · intro h
    refine ⟨?_, ?_, ?_⟩
    · show Except.ok
          [Instr.llvmNull (tc payload),
           Instr.constI32 1,
           Instr.gep (tc payload) (VRef.res 0) (VRef.res 1),
           Instr.ptrToInt (VRef.res 2),
           Instr.call kCreateValue [VRef.res 3]] =
        Except.ok
          [Instr.llvmNull none,
           Instr.constI32 1,
           Instr.gep none (VRef.res 0) (VRef.res 1),
           Instr.ptrToInt (VRef.res 2),
           Instr.call kCreateValue [VRef.res 3]]
      rw [h]
    · unfold runtimeStoreOpLowering
      rw [h]
    · unfold runtimeLoadOpLowering
      rw [h]

theorem runtime_create_value_unchecked_payload_witness :
    runtimeCreateOpLowering (fun _ => none) (MType.value (MType.i 32)) =
      Except.ok
        [Instr.llvmNull none,
         Instr.constI32 1,
         Instr.gep none (VRef.res 0) (VRef.res 1),
         Instr.ptrToInt (VRef.res 2),
         Instr.call kCreateValue [VRef.res 3]] :=
  ((runtime_create_value_unchecked_payload (fun _ => none) (MType.i 32)).2
    rfl).1

/-- Claim C9: the declaration step is idempotent: every insertion is
guarded by a symbol table lookup of the declaration name, so running the
step again changes nothing, a name absent from the unit ends up declared
exactly once, and a unit that already declares every name is left exactly
as it was. -/
theorem runtime_declarations_idempotent (m : IRModule) :
    addRuntimeDeclarations (addRuntimeDeclarations m) =
        addRuntimeDeclarations m ∧
    (∀ d ∈ apiDecls ++ cRuntimeDecls, lookupSymbol m d.name = false →
      countName (addRuntimeDeclarations m) d.name = 1) ∧
    ((∀ d ∈ apiDecls ++ cRuntimeDecls, lookupSymbol m d.name = true) →
      addRuntimeDeclarations m = m) := by
  refine ⟨?_, ?_, ?_⟩
  · unfold addRuntimeDeclarations addCRuntimeDeclarations
      addAsyncRuntimeApiDeclarations
    have h1 : addDecls (addDecls (addDecls m apiDecls) cRuntimeDecls) apiDecls
        = addDecls (addDecls m apiDecls) cRuntimeDecls := by
      apply addDecls_of_lookup_all
      intro d hd
      exact lookup_addDecls_mono cRuntimeDecls (addDecls m apiDecls) d.name
        (lookup_addDecls_of_mem apiDecls m d hd)
    rw [h1]
    exact addDecls_idem cRuntimeDecls (addDecls m apiDecls)
  · intro d hd hlk
    unfold addRuntimeDeclarations addCRuntimeDeclarations
      addAsyncRuntimeApiDeclarations
    rcases List.mem_append.mp hd with hapi | hcrt
    · have h1 : countName (addDecls m apiDecls) d.name = 1 :=
        countName_addDecls_eq_one apiDecls m d.name hlk ⟨d, hapi, rfl⟩
      have h2 : lookupSymbol (addDecls m apiDecls) d.name = true :=
        lookup_addDecls_of_mem apiDecls m d hapi
      rw [countName_addDecls_of_lookup cRuntimeDecls (addDecls m apiDecls)
        d.name h2]
      exact h1
    · have hnames : ∀ a ∈ apiDecls, (a.name == d.name) = false := by
        have hdn : d.name = kMalloc ∨ d.name = kFree := by
          cases hcrt with
          | head => exact Or.inl rfl
          | tail _ h2 =>
              cases h2 with
              | head => exact Or.inr rfl
              | tail _ h3 => cases h3
        rcases hdn with h | h <;> rw [h] <;> decide
      have hlk1 : lookupSymbol (addDecls m apiDecls) d.name = false :=
        lookup_addDecls_false apiDecls m d.name hlk hnames
      exact countName_addDecls_eq_one cRuntimeDecls (addDecls m apiDecls)
        d.name hlk1 ⟨d, hcrt, rfl⟩
  · intro hall
    unfold addRuntimeDeclarations addCRuntimeDeclarations
      addAsyncRuntimeApiDeclarations
    have h1 : addDecls m apiDecls = m :=
      addDecls_of_lookup_all apiDecls m
        (fun d hd => hall d (List.mem_append.mpr (Or.inl hd)))
    rw [h1]
    exact addDecls_of_lookup_all cRuntimeDecls m
      (fun d hd => hall d (List.mem_append.mpr (Or.inr hd)))

theorem runtime_declarations_idempotent_witness :
    countName (addRuntimeDeclarations []) kAddRef = 1 :=
  (runtime_declarations_idempotent []).2.1
    (FuncDecl.mk kAddRef [opaquePointerType, MType.i 32] [])
    (List.mem_append.mpr
      (Or.inl (List.mem_cons_self (FuncDecl.mk kAddRef
        [opaquePointerType, MType.i 32] []) apiDecls.tail)))
    rfl
